import Mathlib

/-!
Shallow embedding of the `xhttp` package: a thin wrapper around a platform
HTTP client.  The repository holds two near-identical implementations of the
same client (one with `GET`/`POST`/`Do`, one with `Get`/`Post`/`SendRaw`);
they are embedded separately as `Xhttp.VarA` (the `xhttp.go` variant) and
`Xhttp.VarB` (the second variant).  Shared data types, the request builder
helpers and the client factory — textually identical in both variants — are
embedded once at the `Xhttp` level.

External effects (the platform HTTP stack `http.NewRequest` / `Client.Do`,
body-stream reads, and the filesystem write) are modelled by an explicit
environment `NetEnv`; everything else is transcribed from the Go source.
Go strings are Lean `String`s, byte slices are `List Nat` (each entry a
byte value), `time.Duration` is `Int` (nanoseconds), and a Go map that may
be `nil` is an `Option` over an association list.
-/

set_option autoImplicit false

namespace Xhttp

/-- Go `http.Header` / `url.Values`: `map[string][]string`.  An association
list with unique keys models the map; the sole key lookup order the code
uses (`Get`, `Set`, `Encode`) is key-based so list order is irrelevant. -/
abbrev HeaderMap := List (String × List String)

/-- `url.Values` has the same underlying shape as `http.Header`. -/
abbrev ValuesMap := List (String × List String)

/-- Go `http.Header.Set(k, v)`: replace the binding of `k` by the single value
`v`, inserting it if absent.  (The keys the source passes — Content-Type,
Authorization — are already in MIME-canonical form, so canonicalisation is
the identity here.) -/
def headerSet (h : HeaderMap) (k v : String) : HeaderMap :=
  match h with
  | [] => [(k, [v])]
  | (k', vs) :: rest => if k' = k then (k, [v]) :: rest else (k', vs) :: headerSet rest k v

/-- Go `http.Header.Get(k)`: first value bound to `k`, or `""` if absent. -/
def headerGet (h : HeaderMap) (k : String) : String :=
  match h with
  | [] => ""
  | (k', vs) :: rest => if k' = k then vs.headD "" else headerGet rest k

/-- `Get` on a possibly-`nil` Go map: a `nil` map reads as empty. -/
def hdrOptGet (h : Option HeaderMap) (k : String) : String :=
  headerGet (h.getD []) k

/-- Go `len` of a possibly-`nil` `http.Header` (number of keys). -/
def hdrLen (h : Option HeaderMap) : Nat :=
  (h.getD []).length

/-- Go `len` of a possibly-`nil` `url.Values` (number of keys). -/
def vLen (v : Option ValuesMap) : Nat :=
  (v.getD []).length

/-- UTF-8 encoding of one character, per the Go runtime (strings are byte
sequences; `url.QueryEscape` operates on the bytes). -/
def utf8EncodeChar (c : Char) : List Nat :=
  let n := c.toNat
  if n < 0x80 then [n]
  else if n < 0x800 then [0xC0 ||| (n >>> 6), 0x80 ||| (n &&& 0x3F)]
  else if n < 0x10000 then
    [0xE0 ||| (n >>> 12), 0x80 ||| ((n >>> 6) &&& 0x3F), 0x80 ||| (n &&& 0x3F)]
  else
    [0xF0 ||| (n >>> 18), 0x80 ||| ((n >>> 12) &&& 0x3F),
     0x80 ||| ((n >>> 6) &&& 0x3F), 0x80 ||| (n &&& 0x3F)]

/-- The bytes of a Go string. -/
def strBytes (s : String) : List Nat :=
  (s.toList.map utf8EncodeChar).flatten

/-- Upper-case hexadecimal digit, as `net/url` emits in `%XX` escapes. -/
def hexUpperDigit (n : Nat) : Char :=
  if n < 10 then Char.ofNat (48 + n) else Char.ofNat (65 + (n - 10))

/-- Whether `url.QueryEscape` leaves the byte unescaped
(`A-Z a-z 0-9 - _ . ~`). -/
def queryUnreservedByte (b : Nat) : Bool :=
  (65 ≤ b && b ≤ 90) || (97 ≤ b && b ≤ 122) || (48 ≤ b && b ≤ 57) ||
  b == 45 || b == 95 || b == 46 || b == 126

/-- `url.QueryEscape` on one byte: space becomes `+`, unreserved bytes pass
through, everything else becomes `%XX`. -/
def queryEscapeByte (b : Nat) : String :=
  if b = 32 then "+"
  else if queryUnreservedByte b then String.singleton (Char.ofNat b)
  else "%" ++ String.singleton (hexUpperDigit (b / 16)) ++ String.singleton (hexUpperDigit (b % 16))

/-- Go `url.QueryEscape`. -/
def queryEscape (s : String) : String :=
  String.join ((strBytes s).map queryEscapeByte)

/-- Lexicographic order on byte sequences: how Go `sort.Strings` compares
strings. -/
def bytesLt : List Nat → List Nat → Bool
  | [], [] => false
  | [], _ :: _ => true
  | _ :: _, [] => false
  | a :: as, b :: bs => if a < b then true else if b < a then false else bytesLt as bs

/-- Go `string` comparison (byte-wise lexicographic). -/
def strLt (a b : String) : Bool :=
  bytesLt (strBytes a) (strBytes b)

/-- Insert one key/values pair into a key-sorted list (Go `sort.Strings`
order). -/
def insertByKey (p : String × List String) : ValuesMap → ValuesMap
  | [] => [p]
  | q :: rest => if strLt p.1 q.1 then p :: q :: rest else q :: insertByKey p rest

/-- Sort an association list by key, as `url.Values.Encode` sorts the map keys. -/
def sortByKey : ValuesMap → ValuesMap
  | [] => []
  | p :: rest => insertByKey p (sortByKey rest)

/-- The `k=v` pieces of `url.Values.Encode`, in sorted-key order: for each
key in order, one piece per value. -/
def encodePieces (l : ValuesMap) : List String :=
  (l.map (fun kv => kv.2.map (fun v => queryEscape kv.1 ++ "=" ++ queryEscape v))).flatten

/-- Go `url.Values.Encode()`: `""` for a `nil` map, otherwise the `&`-joined
escaped `key=value` pieces in sorted key order. -/
def valuesEncode (v : Option ValuesMap) : String :=
  match v with
  | none => ""
  | some m => String.intercalate "&" (encodePieces (sortByKey m))

/-- The `Request` struct: method, base URL, body bytes, and the two
possibly-`nil` collections. -/
structure Request where
  Method : String
  BaseURL : String
  Body : List Nat
  Header : Option HeaderMap
  Param : Option ValuesMap
deriving DecidableEq

/-- `NewRequest`: both collections are created with `make`, so they are
present and empty. -/
def NewRequest (m : String) (u : String) (b : List Nat) : Request :=
  { Method := m, BaseURL := u, Body := b, Header := some [], Param := some [] }

/-- `Request.SetContentTypeJSON`: re-initialise the header map if `nil`,
then `Set("Content-Type", "application/json")`. -/
def Request.SetContentTypeJSON (r : Request) : Request :=
  { r with Header := some (headerSet (r.Header.getD []) "Content-Type" "application/json") }

/-- `Request.SetContentType`: re-initialise the header map if `nil`, then
`Set("Content-Type", value)`. -/
def Request.SetContentType (r : Request) (value : String) : Request :=
  { r with Header := some (headerSet (r.Header.getD []) "Content-Type" value) }

/-- `Request.SetAuthorization`: re-initialise the header map if `nil`, then
`Set("Authorization", value)`. -/
def Request.SetAuthorization (r : Request) (value : String) : Request :=
  { r with Header := some (headerSet (r.Header.getD []) "Authorization" value) }

/-- The shaped `Response` struct. -/
structure Response where
  StatusCode : Int
  Status : String
  Body : List Nat
  Headers : HeaderMap
deriving DecidableEq

instance {ε α : Type} [DecidableEq ε] [DecidableEq α] : DecidableEq (Except ε α) := by
  intro a b
  cases a with
  | error e =>
    cases b with
    | error f =>
      exact if h : e = f then isTrue (by rw [h]) else isFalse (fun hh => h (by cases hh; rfl))
    | ok _ => exact isFalse (fun hh => by cases hh)
  | ok x =>
    cases b with
    | error _ => exact isFalse (fun hh => by cases hh)
    | ok y =>
      exact if h : x = y then isTrue (by rw [h]) else isFalse (fun hh => h (by cases hh; rfl))

/-- The platform `http.Request` as far as this code observes it: the method,
URL and body handed to `http.NewRequest`, and the header map (which the
constructor initialises and `buildRequest` may replace wholesale). -/
structure HttpRequest where
  Method : String
  URL : String
  Body : List Nat
  Header : HeaderMap
deriving DecidableEq

/-- The platform `http.Response` as far as this code observes it.
`BodyRead` is what draining the body stream (`ioutil.ReadAll`) yields:
either the full body bytes or an I/O error. -/
structure HttpResponse where
  StatusCode : Int
  Status : String
  Header : HeaderMap
  BodyRead : Except String (List Nat)
deriving DecidableEq

/-- The outcome of the platform `http.Client.Do`.  Per the platform contract
a response and an error are never both absent; when both are present (a
redirect-policy failure) the platform has already closed the response body. -/
inductive DoResult where
  | failure (e : String)
  | failureWithResp (r : HttpResponse) (e : String)
  | success (r : HttpResponse)
deriving DecidableEq

/-- The environment modelling everything outside this package: validity of
(method, URL) pairs for `http.NewRequest` and its error, the header map the
constructor initialises, the dispatch outcome, and the `ioutil.WriteFile`
outcome (`none` = success). -/
structure NetEnv where
  reqValid : String → String → Bool
  buildErrMsg : String
  ctorHeader : HeaderMap
  doResult : HttpRequest → DoResult
  writeErr : Option String

/-- What `Send` produces: the Go `(*Response, error)` pair as an `Except`,
plus whether the obtained response body stream was closed by the time `Send`
returned (`false` when no response was obtained). -/
structure SendOutcome where
  result : Except String Response
  bodyClosed : Bool
deriving DecidableEq

/-- Observable filesystem effect of `DownloadFile`. -/
inductive FileEffect where
  | noWrite
  | wrote (path : String) (data : List Nat) (perm : Nat)
deriving DecidableEq

/-- The Go `error` result of `DownloadFile` together with its filesystem
effect. -/
structure DownloadOutcome where
  err : Option String
  fs : FileEffect
deriving DecidableEq

/-- The URL `buildRequest` computes: the base URL, joined with `?` and the
encoded parameters when the parameter collection is non-empty. -/
def buildURL (req : Request) : String :=
  if vLen req.Param ≠ 0 then req.BaseURL ++ "?" ++ valuesEncode req.Param else req.BaseURL

/-- TLS config subset this code sets: `tls.Config{InsecureSkipVerify: ...}`. -/
structure TLSConfig where
  InsecureSkipVerify : Bool
deriving DecidableEq

/-- The `http.Transport` fields `createClient` wires from the configuration
(the `Proxy` and `DialContext` callbacks are platform functions carrying the
dial timeout and keep-alive, recorded here as the data they close over). -/
structure Transport where
  DialTimeout : Int
  KeepAlive : Int
  IdleConnTimeout : Int
  TLSHandshakeTimeout : Int
  ExpectContinueTimeout : Int
  MaxIdleConns : Int
  TLSClientConfig : TLSConfig
deriving DecidableEq

/-- The `http.Client` fields `createClient` sets. -/
structure HTTPClient where
  Timeout : Int
  Transport : Xhttp.Transport
deriving DecidableEq

/-- The `Client` wrapper struct. -/
structure Client where
  HTTPClient : Xhttp.HTTPClient
deriving DecidableEq

/-- `ClientConfig` (the `TLSHanshakeTimeout` spelling is the source's). -/
structure ClientConfig where
  Timeout : Int
  DialTimeout : Int
  KeepAlive : Int
  IdleConnTimeout : Int
  TLSHanshakeTimeout : Int
  ExpectContinueTimeout : Int
  MaxIdleConns : Int
  SkipTLSVerify : Bool
  IncludeRootCA : Bool
deriving DecidableEq

/-- `time.Second` in nanoseconds (`time.Duration` is an `int64` of ns). -/
def timeSecond : Int := 1000000000

/-- `DefaultClientTimeout = 30 * time.Second`. -/
def DefaultClientTimeout : Int := 30 * timeSecond

/-- `DefaultDialTimeout = 10 * time.Second`. -/
def DefaultDialTimeout : Int := 10 * timeSecond

/-- `DefaultKeepAlive = 30 * time.Second`. -/
def DefaultKeepAlive : Int := 30 * timeSecond

/-- `DefaultIdleConnTimeout = 90 * time.Second`. -/
def DefaultIdleConnTimeout : Int := 90 * timeSecond

/-- `DefaultTLSHandshakeTimeout = 10 * time.Second`. -/
def DefaultTLSHandshakeTimeout : Int := 10 * timeSecond

/-- `DefaultExpectContinueTimeout = 1 * time.Second`. -/
def DefaultExpectContinueTimeout : Int := 1 * timeSecond

/-- `DefaultMaxIdleConns = 100`. -/
def DefaultMaxIdleConns : Int := 100

/-- `DefaultClientConfig`. -/
def DefaultClientConfig : ClientConfig :=
  { Timeout := DefaultClientTimeout
    DialTimeout := DefaultDialTimeout
    KeepAlive := DefaultKeepAlive
    IdleConnTimeout := DefaultIdleConnTimeout
    TLSHanshakeTimeout := DefaultTLSHandshakeTimeout
    ExpectContinueTimeout := DefaultExpectContinueTimeout
    MaxIdleConns := DefaultMaxIdleConns
    SkipTLSVerify := false
    IncludeRootCA := false }

/-- `createClient`: wire every configuration field, unvalidated, into the
TLS config, the transport and the client. -/
def createClient (cfg : ClientConfig) : Client :=
  { HTTPClient :=
    { Timeout := cfg.Timeout
      Transport :=
      { DialTimeout := cfg.DialTimeout
        KeepAlive := cfg.KeepAlive
        IdleConnTimeout := cfg.IdleConnTimeout
        TLSHandshakeTimeout := cfg.TLSHanshakeTimeout
        ExpectContinueTimeout := cfg.ExpectContinueTimeout
        MaxIdleConns := cfg.MaxIdleConns
        TLSClientConfig := { InsecureSkipVerify := cfg.SkipTLSVerify } } } }

/-- `NewClient()`. -/
def NewClient : Client := createClient DefaultClientConfig

/-- `NewClientWithConfig(cfg)`. -/
def NewClientWithConfig (cfg : ClientConfig) : Client := createClient cfg

namespace VarA

/-- `Client.buildRequest` (xhttp.go): combine base URL and encoded params
when params are non-empty, call `http.NewRequest`, then replace the header
map wholesale when the request's header collection is non-empty. -/
def buildRequest (env : NetEnv) (req : Request) : Except String HttpRequest :=
  if env.reqValid req.Method (buildURL req) then
    let r : HttpRequest :=
      { Method := req.Method, URL := buildURL req, Body := req.Body, Header := env.ctorHeader }
    if hdrLen req.Header ≠ 0 then .ok { r with Header := req.Header.getD [] } else .ok r
  else .error env.buildErrMsg

/-- `Client.buildResponse` (xhttp.go): drain the body; on read failure
return the error, otherwise the shaped response.  (This variant does not
close the body itself - `Send` defers the close.) -/
def buildResponse (resp : HttpResponse) : Except String Response :=
  match resp.BodyRead with
  | .error e => .error e
  | .ok body =>
    .ok { StatusCode := resp.StatusCode, Status := resp.Status, Body := body,
          Headers := resp.Header }

/-- `Client.Send` (xhttp.go): build, dispatch via `Do`, and - whenever a
response was obtained, error or not - close its body on return via `defer`.
On the error-with-response path the platform has already closed the body as
well; either way it is closed by the time `Send` returns. -/
def Send (env : NetEnv) (request : Request) : SendOutcome :=
  match buildRequest env request with
  | .error e => { result := .error e, bodyClosed := false }
  | .ok req =>
    match env.doResult req with
    | .failure e => { result := .error e, bodyClosed := false }
    | .failureWithResp _ e => { result := .error e, bodyClosed := true }
    | .success r => { result := buildResponse r, bodyClosed := true }

/-- `Client.GET` (xhttp.go): `Send` of `NewRequest(http.MethodGet, url, nil)`. -/
def GET (env : NetEnv) (url : String) : SendOutcome :=
  Send env (NewRequest "GET" url [])

/-- The request `Client.POST` constructs: `NewRequest(http.MethodPost, url,
body)` followed by `req.Header.Set("Content-Type", contentType)`. -/
def postRequest (url : String) (contentType : String) (body : List Nat) : Request :=
  let req := NewRequest "POST" url body
  { req with Header := some (headerSet (req.Header.getD []) "Content-Type" contentType) }

/-- `Client.POST` (xhttp.go). -/
def POST (env : NetEnv) (url : String) (contentType : String) (body : List Nat) : SendOutcome :=
  Send env (postRequest url contentType body)

/-- `Client.DownloadFile` (xhttp.go): GET, fail on a non-200 status with
`"download failed: " + status`, otherwise `ioutil.WriteFile(filename, body,
0644)`. -/
def DownloadFile (env : NetEnv) (url : String) (filename : String) : DownloadOutcome :=
  match (GET env url).result with
  | .error e => { err := some e, fs := .noWrite }
  | .ok resp =>
    if resp.StatusCode ≠ 200 then
      { err := some ("download failed: " ++ resp.Status), fs := .noWrite }
    else
      match env.writeErr with
      | some e => { err := some e, fs := .noWrite }
      | none => { err := none, fs := .wrote filename resp.Body 0o644 }

end VarA

namespace VarB

/-- `Client.buildRequest` (second variant): textually identical to the
xhttp.go variant. -/
def buildRequest (env : NetEnv) (req : Request) : Except String HttpRequest :=
  if env.reqValid req.Method (buildURL req) then
    let r : HttpRequest :=
      { Method := req.Method, URL := buildURL req, Body := req.Body, Header := env.ctorHeader }
    if hdrLen req.Header ≠ 0 then .ok { r with Header := req.Header.getD [] } else .ok r
  else .error env.buildErrMsg

/-- `Client.buildResponse` (second variant): drain the body; on read failure
return the error WITHOUT closing the stream (the `defer res.Body.Close()`
is only reached after a successful read); on success close it and return
the shaped response.  The second component records whether the stream was
closed. -/
def buildResponse (res : HttpResponse) : Except String Response × Bool :=
  match res.BodyRead with
  | .error e => (.error e, false)
  | .ok body =>
    (.ok { StatusCode := res.StatusCode, Status := res.Status, Body := body,
           Headers := res.Header }, true)

/-- `Client.Send` (second variant): build, dispatch via `SendRaw`, return a
dispatch error as-is (on the error-with-response path the platform has
already closed the body), otherwise shape via `buildResponse` - which
closes the stream only on the successful-read path. -/
def Send (env : NetEnv) (request : Request) : SendOutcome :=
  match buildRequest env request with
  | .error e => { result := .error e, bodyClosed := false }
  | .ok req =>
    match env.doResult req with
    | .failure e => { result := .error e, bodyClosed := false }
    | .failureWithResp _ e => { result := .error e, bodyClosed := true }
    | .success r =>
      let p := buildResponse r
      { result := p.1, bodyClosed := p.2 }

/-- `Client.Get` (second variant). -/
def Get (env : NetEnv) (url : String) : SendOutcome :=
  Send env (NewRequest "GET" url [])

/-- The request `Client.Post` constructs. -/
def postRequest (url : String) (contentType : String) (body : List Nat) : Request :=
  let req := NewRequest "POST" url body
  { req with Header := some (headerSet (req.Header.getD []) "Content-Type" contentType) }

/-- `Client.Post` (second variant). -/
def Post (env : NetEnv) (url : String) (contentType : String) (body : List Nat) : SendOutcome :=
  Send env (postRequest url contentType body)

/-- `Client.DownloadFile` (second variant): the non-200 error is
`errors.New(resp.Status)` - the bare status text. -/
def DownloadFile (env : NetEnv) (url : String) (filename : String) : DownloadOutcome :=
  match (Get env url).result with
  | .error e => { err := some e, fs := .noWrite }
  | .ok resp =>
    if resp.StatusCode ≠ 200 then
      { err := some resp.Status, fs := .noWrite }
    else
      match env.writeErr with
      | some e => { err := some e, fs := .noWrite }
      | none => { err := none, fs := .wrote filename resp.Body 0o644 }

end VarB

/-- Number of `?` characters in a string. -/
def countQ (s : String) : Nat :=
  s.data.count '?'

/-! Concrete inputs used by the witness theorems. -/

/-- A platform response with a non-2xx status and a readable body. -/
def respEx : HttpResponse :=
  { StatusCode := 400, Status := "400 Bad Request", Header := [("X-Test", ["yes"])],
    BodyRead := .ok [104, 105] }

/-- A platform response whose body read fails. -/
def respReadErr : HttpResponse :=
  { StatusCode := 200, Status := "200 OK", Header := [], BodyRead := .error "read failed" }

/-- An environment where dispatch always succeeds with `respEx`. -/
def envEx : NetEnv :=
  { reqValid := fun _ _ => true, buildErrMsg := "invalid request",
    ctorHeader := [("Ctor", ["v"])], doResult := fun _ => .success respEx,
    writeErr := none }

/-- An environment where dispatch succeeds but the body read fails. -/
def envReadErr : NetEnv :=
  { envEx with doResult := fun _ => .success respReadErr }

/-- The platform request `buildRequest` produces from
`NewRequest "GET" "u" []` under `envEx` / `envReadErr`. -/
def reqBuiltEx : HttpRequest :=
  { Method := "GET", URL := "u", Body := [], Header := [("Ctor", ["v"])] }

/-- A `Request` carrying a non-empty header collection. -/
def reqWithHdr : Request :=
  { Method := "GET", BaseURL := "u", Body := [], Header := some [("H", ["w"])],
    Param := some [] }

/-- A `Request` whose base URL already carries a query string and whose
parameter collection is non-empty. -/
def reqWithParams : Request :=
  { Method := "GET", BaseURL := "http://e.com/p?x=0", Body := [],
    Header := some [], Param := some [("b", ["2"]), ("a", ["1"])] }

/-! Helper lemmas. -/

/-- After `Set`, `Get` of the same key sees the new single value. -/
theorem headerGet_headerSet (h : HeaderMap) (k v : String) :
    headerGet (headerSet h k v) k = v := by
  induction h with
  | nil => simp [headerSet, headerGet]
  | cons p rest ih =>
    obtain ⟨k', vs⟩ := p
    by_cases hk : k' = k
    · subst hk
      simp [headerSet, headerGet]
    · simp [headerSet, headerGet, hk, ih]

/-- String concatenation concatenates the character data. -/
theorem string_data_append (a b : String) : (a ++ b).data = a.data ++ b.data := by
  cases a
  cases b
  rfl

/-- `countQ` distributes over concatenation. -/
theorem countQ_append (a b : String) : countQ (a ++ b) = countQ a + countQ b := by
  simp [countQ, string_data_append, List.count_append]

/-- Characterization of a successful `buildRequest`: the protocol request
carries the request's method, the combined URL, the body bytes, and either
the request's header collection (when non-empty) or the
constructor-initialised one. -/
theorem buildRequestA_ok (env : NetEnv) (request : Request) (req : HttpRequest)
    (hb : VarA.buildRequest env request = .ok req) :
    req.Method = request.Method ∧ req.URL = buildURL request ∧
    req.Body = request.Body ∧
    req.Header = (if hdrLen request.Header ≠ 0 then request.Header.getD []
                  else env.ctorHeader) := by
  unfold VarA.buildRequest at hb
  by_cases hv : env.reqValid request.Method (buildURL request) = true
  · rw [if_pos hv] at hb
    by_cases hh : hdrLen request.Header ≠ 0
    · rw [if_pos hh] at hb
      injection hb with h
      rw [← h]
      simp [hh]
    · rw [if_neg hh] at hb
      injection hb with h
      rw [← h]
      simp [hh]
  · rw [if_neg hv] at hb
    cases hb

/-- `Send` (xhttp.go) when building the protocol request fails. -/
theorem sendA_eval_err (env : NetEnv) (request : Request) (e : String)
    (hb : VarA.buildRequest env request = .error e) :
    VarA.Send env request = { result := .error e, bodyClosed := false } := by
  unfold VarA.Send
  rw [hb]

/-- `Send` (xhttp.go) when the dispatch fails without a response. -/
theorem sendA_eval_fail (env : NetEnv) (request : Request) (req : HttpRequest) (e : String)
    (hb : VarA.buildRequest env request = .ok req)
    (hd : env.doResult req = .failure e) :
    VarA.Send env request = { result := .error e, bodyClosed := false } := by
  unfold VarA.Send
  rw [hb]
  simp only [hd]

/-- `Send` (xhttp.go) when the dispatch fails but yields a response. -/
theorem sendA_eval_failResp (env : NetEnv) (request : Request) (req : HttpRequest)
    (r : HttpResponse) (e : String)
    (hb : VarA.buildRequest env request = .ok req)
    (hd : env.doResult req = .failureWithResp r e) :
    VarA.Send env request = { result := .error e, bodyClosed := true } := by
  unfold VarA.Send
  rw [hb]
  simp only [hd]

/-- `Send` (xhttp.go) when the dispatch succeeds. -/
theorem sendA_eval_success (env : NetEnv) (request : Request) (req : HttpRequest)
    (r : HttpResponse)
    (hb : VarA.buildRequest env request = .ok req)
    (hd : env.doResult req = .success r) :
    VarA.Send env request = { result := VarA.buildResponse r, bodyClosed := true } := by
  unfold VarA.Send
  rw [hb]
  simp only [hd]

/-- `Send` (second variant) when building the protocol request fails. -/
theorem sendB_eval_err (env : NetEnv) (request : Request) (e : String)
    (hb : VarB.buildRequest env request = .error e) :
    VarB.Send env request = { result := .error e, bodyClosed := false } := by
  unfold VarB.Send
  rw [hb]

/-- `Send` (second variant) when the dispatch fails without a response. -/
theorem sendB_eval_fail (env : NetEnv) (request : Request) (req : HttpRequest) (e : String)
    (hb : VarB.buildRequest env request = .ok req)
    (hd : env.doResult req = .failure e) :
    VarB.Send env request = { result := .error e, bodyClosed := false } := by
  unfold VarB.Send
  rw [hb]
  simp only [hd]

/-- `Send` (second variant) when the dispatch fails but yields a response. -/
theorem sendB_eval_failResp (env : NetEnv) (request : Request) (req : HttpRequest)
    (r : HttpResponse) (e : String)
    (hb : VarB.buildRequest env request = .ok req)
    (hd : env.doResult req = .failureWithResp r e) :
    VarB.Send env request = { result := .error e, bodyClosed := true } := by
  unfold VarB.Send
  rw [hb]
  simp only [hd]

/-- `Send` (second variant) when the dispatch succeeds. -/
theorem sendB_eval_success (env : NetEnv) (request : Request) (req : HttpRequest)
    (r : HttpResponse)
    (hb : VarB.buildRequest env request = .ok req)
    (hd : env.doResult req = .success r) :
    VarB.Send env request =
      { result := (VarB.buildResponse r).1, bodyClosed := (VarB.buildResponse r).2 } := by
  unfold VarB.Send
  rw [hb]
  simp only [hd]

end Xhttp

open Xhttp

/-- Claim C5: for every configuration value, `NewClientWithConfig` produces a
client whose overall timeout equals the configured timeout and whose
transport's skip-TLS-verification setting equals the configuration's
`SkipTLSVerify` flag exactly (verification disabled iff the flag is true);
every other transport field is likewise passed through unchanged, with no
validation or clamping of any configuration field. -/
theorem xhttp_C5 (cfg : ClientConfig) :
    NewClientWithConfig cfg = createClient cfg ∧
    (NewClientWithConfig cfg).HTTPClient.Timeout = cfg.Timeout ∧
    (NewClientWithConfig cfg).HTTPClient.Transport.TLSClientConfig.InsecureSkipVerify
      = cfg.SkipTLSVerify ∧
    ((NewClientWithConfig cfg).HTTPClient.Transport.TLSClientConfig.InsecureSkipVerify = true
      ↔ cfg.SkipTLSVerify = true) ∧
    (NewClientWithConfig cfg).HTTPClient.Transport.DialTimeout = cfg.DialTimeout ∧
    (NewClientWithConfig cfg).HTTPClient.Transport.KeepAlive = cfg.KeepAlive ∧
    (NewClientWithConfig cfg).HTTPClient.Transport.IdleConnTimeout = cfg.IdleConnTimeout ∧
    (NewClientWithConfig cfg).HTTPClient.Transport.TLSHandshakeTimeout = cfg.TLSHanshakeTimeout ∧
    (NewClientWithConfig cfg).HTTPClient.Transport.ExpectContinueTimeout
      = cfg.ExpectContinueTimeout ∧
    (NewClientWithConfig cfg).HTTPClient.Transport.MaxIdleConns = cfg.MaxIdleConns :=
  ⟨rfl, rfl, rfl, Iff.rfl, rfl, rfl, rfl, rfl, rfl, rfl⟩

/-- Claim C6: `DefaultClientConfig` always returns the same fixed
configuration: 30s overall timeout, 10s dial timeout, 30s keep-alive, 90s
idle-connection timeout, 10s TLS handshake timeout, 1s expect-continue
timeout, 100 maximum idle connections, TLS verification enabled (skip flag
false), and root-CA augmentation disabled.  (Durations in nanoseconds.) -/
theorem xhttp_C6 :
    DefaultClientConfig.Timeout = 30000000000 ∧
    DefaultClientConfig.DialTimeout = 10000000000 ∧
    DefaultClientConfig.KeepAlive = 30000000000 ∧
    DefaultClientConfig.IdleConnTimeout = 90000000000 ∧
    DefaultClientConfig.TLSHanshakeTimeout = 10000000000 ∧
    DefaultClientConfig.ExpectContinueTimeout = 1000000000 ∧
    DefaultClientConfig.MaxIdleConns = 100 ∧
    DefaultClientConfig.SkipTLSVerify = false ∧
    DefaultClientConfig.IncludeRootCA = false := by
  refine ⟨?_, ?_, ?_, ?_, ?_, ?_, ?_, rfl, rfl⟩ <;> decide

/-- Claim C7: on every request value - built by `NewRequest` (header
collection present) or constructed directly with an absent header collection -
`SetContentTypeJSON` leaves a `Content-Type: application/json` header in the
collection, and `SetContentType` / `SetAuthorization` likewise upsert their
header with the given value. -/
theorem xhttp_C7 (r : Request) (v : String) :
    hdrOptGet (r.SetContentTypeJSON).Header "Content-Type" = "application/json" ∧
    hdrOptGet (r.SetContentType v).Header "Content-Type" = v ∧
    hdrOptGet (r.SetAuthorization v).Header "Authorization" = v := by
  refine ⟨?_, ?_, ?_⟩ <;>
    simp [Request.SetContentTypeJSON, Request.SetContentType, Request.SetAuthorization,
      hdrOptGet, headerGet_headerSet]

/-- Claim C8: every request produced by `NewRequest` has header and
query-parameter collections present and empty (not absent), and every
header-mutator operation leaves the header collection present. -/
theorem xhttp_C8 (m u : String) (b : List Nat) (r : Request) (v : String) :
    (NewRequest m u b).Header = some [] ∧
    (NewRequest m u b).Param = some [] ∧
    (r.SetContentTypeJSON).Header.isSome = true ∧
    (r.SetContentType v).Header.isSome = true ∧
    (r.SetAuthorization v).Header.isSome = true :=
  ⟨rfl, rfl, rfl, rfl, rfl⟩

/-- Claim C1: whenever the dispatch inside `Send` succeeds with a protocol
response, that response's body stream is closed before `Send` returns - on
the success path and on the path where reading the body fails alike - and if
the read fails, `Send` returns the I/O error and no response value. -/
theorem xhttp_C1 (env : NetEnv) (request : Request) (req : HttpRequest) (r : HttpResponse)
    (hb : VarA.buildRequest env request = .ok req)
    (hd : env.doResult req = .success r) :
    (VarA.Send env request).bodyClosed = true ∧
    (∀ e, r.BodyRead = .error e → (VarA.Send env request).result = .error e) ∧
    (∀ body, r.BodyRead = .ok body →
      (VarA.Send env request).result =
        .ok { StatusCode := r.StatusCode, Status := r.Status, Body := body,
              Headers := r.Header }) := by
  have hs : VarA.Send env request = { result := VarA.buildResponse r, bodyClosed := true } := by
    unfold VarA.Send
    rw [hb]
    simp only [hd]
  refine ⟨by rw [hs], ?_, ?_⟩
  · intro e he
    rw [hs]
    simp [VarA.buildResponse, he]
  · intro body hbody
    rw [hs]
    simp [VarA.buildResponse, hbody]

/-- Claim C1 witness: under `envReadErr` the dispatched response's body read
fails; `Send` still reports the body closed and returns the read error. -/
theorem xhttp_C1_witness :
    (VarA.Send envReadErr (NewRequest "GET" "u" [])).bodyClosed = true ∧
    (VarA.Send envReadErr (NewRequest "GET" "u" [])).result = .error "read failed" := by
  have h := xhttp_C1 envReadErr (NewRequest "GET" "u" []) reqBuiltEx respReadErr
    (by decide) rfl
  exact ⟨h.1, h.2.1 "read failed" rfl⟩

/-- Claim C2: `Send` returns an error and no response value whenever building
the protocol request or dispatching it fails; for every dispatch that
succeeds - whatever the status code - it returns a shaped response whose
status code, status text, body bytes and headers equal those of the raw
protocol response; and `GET` / `POST` inherit the same behavior, so no
status code is itself treated as an error. -/
theorem xhttp_C2 (env : NetEnv) (request : Request) (url contentType : String)
    (body : List Nat) :
    (∀ e, VarA.buildRequest env request = .error e →
      VarA.Send env request = { result := .error e, bodyClosed := false }) ∧
    (∀ req e, VarA.buildRequest env request = .ok req → env.doResult req = .failure e →
      (VarA.Send env request).result = .error e) ∧
    (∀ req r e, VarA.buildRequest env request = .ok req →
      env.doResult req = .failureWithResp r e →
      (VarA.Send env request).result = .error e) ∧
    (∀ req r b, VarA.buildRequest env request = .ok req → env.doResult req = .success r →
      r.BodyRead = .ok b →
      (VarA.Send env request).result =
        .ok { StatusCode := r.StatusCode, Status := r.Status, Body := b,
              Headers := r.Header }) ∧
    (∀ req r b, VarA.buildRequest env (NewRequest "GET" url []) = .ok req →
      env.doResult req = .success r → r.BodyRead = .ok b →
      (VarA.GET env url).result =
        .ok { StatusCode := r.StatusCode, Status := r.Status, Body := b,
              Headers := r.Header }) ∧
    (∀ req r b, VarA.buildRequest env (VarA.postRequest url contentType body) = .ok req →
      env.doResult req = .success r → r.BodyRead = .ok b →
      (VarA.POST env url contentType body).result =
        .ok { StatusCode := r.StatusCode, Status := r.Status, Body := b,
              Headers := r.Header }) := by
  refine ⟨?_, ?_, ?_, ?_, ?_, ?_⟩
  · intro e he
    unfold VarA.Send
    rw [he]
  · intro req e hb hd
    unfold VarA.Send
    rw [hb]
    simp only [hd]
  · intro req r e hb hd
    unfold VarA.Send
    rw [hb]
    simp only [hd]
  · intro req r b hb hd hr
    unfold VarA.Send
    rw [hb]
    simp only [hd]
    simp [VarA.buildResponse, hr]
  · intro req r b hb hd hr
    unfold VarA.GET VarA.Send
    rw [hb]
    simp only [hd]
    simp [VarA.buildResponse, hr]
  · intro req r b hb hd hr
    unfold VarA.POST VarA.Send
    rw [hb]
    simp only [hd]
    simp [VarA.buildResponse, hr]

/-- Claim C2 witness: under `envEx` the dispatch succeeds with status 400 and
`Send` shapes it rather than treating it as an error. -/
theorem xhttp_C2_witness :
    (VarA.Send envEx (NewRequest "GET" "u" [])).result =
      .ok { StatusCode := 400, Status := "400 Bad Request", Body := [104, 105],
            Headers := [("X-Test", ["yes"])] } := by
  exact (xhttp_C2 envEx (NewRequest "GET" "u" []) "u" "text/plain" []).2.2.2.1
    reqBuiltEx respEx [104, 105] (by decide) rfl rfl

/-- Claim C3: `DownloadFile` performs a GET; a failing GET propagates its
error with nothing written; a non-200 status yields an error carrying the
status text with nothing written; a 200 status (with the filesystem write
succeeding) writes exactly the response body bytes to the destination path
with permissions 0644 (the platform write creates or truncates the file);
a failing write propagates the filesystem error. -/
theorem xhttp_C3 (env : NetEnv) (url filename : String) :
    (∀ e, (VarA.GET env url).result = .error e →
      VarA.DownloadFile env url filename = { err := some e, fs := .noWrite }) ∧
    (∀ resp, (VarA.GET env url).result = .ok resp → resp.StatusCode ≠ 200 →
      VarA.DownloadFile env url filename =
        { err := some ("download failed: " ++ resp.Status), fs := .noWrite }) ∧
    (∀ resp, (VarA.GET env url).result = .ok resp → resp.StatusCode = 200 →
      env.writeErr = none →
      VarA.DownloadFile env url filename =
        { err := none, fs := .wrote filename resp.Body 0o644 }) ∧
    (∀ resp e, (VarA.GET env url).result = .ok resp → resp.StatusCode = 200 →
      env.writeErr = some e →
      VarA.DownloadFile env url filename = { err := some e, fs := .noWrite }) := by
  refine ⟨?_, ?_, ?_, ?_⟩
  · intro e he
    unfold VarA.DownloadFile
    rw [he]
  · intro resp hok hne
    unfold VarA.DownloadFile
    rw [hok]
    simp [hne]
  · intro resp hok h200 hw
    unfold VarA.DownloadFile
    rw [hok]
    simp [h200, hw]
  · intro resp e hok h200 hw
    unfold VarA.DownloadFile
    rw [hok]
    simp [h200, hw]

/-- Claim C3 witness: a 400 response makes `DownloadFile` fail with the
status text and write nothing. -/
theorem xhttp_C3_witness :
    VarA.DownloadFile envEx "u" "f" =
      { err := some "download failed: 400 Bad Request", fs := .noWrite } := by
  have h := (xhttp_C3 envEx "u" "f").2.1
    { StatusCode := 400, Status := "400 Bad Request", Body := [104, 105],
      Headers := [("X-Test", ["yes"])] } (by decide) (by decide)
  exact h.trans (by decide)

/-- Claim C10: when `buildRequest` succeeds, a non-empty header collection on
the request replaces the protocol request's header map wholesale (the
constructor-initialised headers are discarded), while an empty collection
leaves the constructor's header map unchanged. -/
theorem xhttp_C10 (env : NetEnv) (request : Request) (req : HttpRequest) :
    (hdrLen request.Header ≠ 0 → VarA.buildRequest env request = .ok req →
      req.Header = request.Header.getD []) ∧
    (hdrLen request.Header = 0 → VarA.buildRequest env request = .ok req →
      req.Header = env.ctorHeader) := by
  constructor
  · intro hne hb
    rw [(buildRequestA_ok env request req hb).2.2.2, if_pos hne]
  · intro hz hb
    rw [(buildRequestA_ok env request req hb).2.2.2, if_neg (by simp [hz])]

/-- Claim C10 witness: a request with header collection `[("H", ["w"])]`
yields a protocol request whose header map is exactly that collection. -/
theorem xhttp_C10_witness :
    ({ Method := "GET", URL := "u", Body := [], Header := [("H", ["w"])] }
        : HttpRequest).Header = reqWithHdr.Header.getD [] := by
  exact (xhttp_C10 envEx reqWithHdr _).1 (by decide) (by decide)

/-- Claim C4: with a non-empty query-parameter collection the URL handed to
the protocol-request constructor is the base URL joined with `?` and the
canonical encoding of the parameters, without detecting or merging any `?`
already in the base URL (a base URL that already carries a query string
yields a URL with at least two `?`); with an empty collection the base URL
is used unchanged.  The canonical encoding sorts keys and escapes, so
parameters a=1, b=2 encode to `a=1&b=2` in either listing order. -/
theorem xhttp_C4 (env : NetEnv) (request : Request) :
    (vLen request.Param = 0 → buildURL request = request.BaseURL) ∧
    (vLen request.Param ≠ 0 →
      buildURL request = request.BaseURL ++ "?" ++ valuesEncode request.Param) ∧
    (vLen request.Param ≠ 0 →
      countQ (buildURL request) =
        countQ request.BaseURL + 1 + countQ (valuesEncode request.Param)) ∧
    (vLen request.Param ≠ 0 → 1 ≤ countQ request.BaseURL →
      2 ≤ countQ (buildURL request)) ∧
    (∀ req, VarA.buildRequest env request = .ok req → req.URL = buildURL request) ∧
    valuesEncode (some [("a", ["1"]), ("b", ["2"])]) = "a=1&b=2" ∧
    valuesEncode (some [("b", ["2"]), ("a", ["1"])]) = "a=1&b=2" := by
  have hq : countQ "?" = 1 := by decide
  refine ⟨?_, ?_, ?_, ?_, ?_, by decide, by decide⟩
  · intro h
    simp [buildURL, h]
  · intro h
    simp [buildURL, h]
  · intro h
    have e1 : buildURL request = request.BaseURL ++ "?" ++ valuesEncode request.Param := by
      simp [buildURL, h]
    rw [e1, countQ_append, countQ_append, hq]
  · intro h h1
    have e1 : buildURL request = request.BaseURL ++ "?" ++ valuesEncode request.Param := by
      simp [buildURL, h]
    rw [e1, countQ_append, countQ_append, hq]
    omega
  · intro req hb
    exact (buildRequestA_ok env request req hb).2.1

/-- Claim C4 witness: a base URL already containing `?x=0`, with non-empty
parameters, yields a malformed URL with two `?`. -/
theorem xhttp_C4_witness : 2 ≤ countQ (buildURL reqWithParams) :=
  (xhttp_C4 envEx reqWithParams).2.2.2.1 (by decide) (by decide)

/-- Claim C9: the two duplicate implementations build identical protocol
requests, and their `Send` operations return equal results on every path
(in particular equal shaped responses whenever the body read succeeds); the
only observable divergence is the body-stream closing, and it can differ
only on the path where the dispatch succeeded and the body read failed. -/
theorem xhttp_C9 (env : NetEnv) (request : Request) :
    VarA.buildRequest env request = VarB.buildRequest env request ∧
    (VarA.Send env request).result = (VarB.Send env request).result ∧
    ((VarA.Send env request).bodyClosed ≠ (VarB.Send env request).bodyClosed →
      ∃ req r e, VarA.buildRequest env request = .ok req ∧
        env.doResult req = .success r ∧ r.BodyRead = .error e) := by
  have hAB : VarA.buildRequest env request = VarB.buildRequest env request := rfl
  refine ⟨hAB, ?_, ?_⟩
  · cases hbr : VarA.buildRequest env request with
    | error e =>
      rw [sendA_eval_err env request e hbr, sendB_eval_err env request e (hAB.symm.trans hbr)]
    | ok req =>
      cases hdo : env.doResult req with
      | failure e =>
        rw [sendA_eval_fail env request req e hbr hdo,
          sendB_eval_fail env request req e (hAB.symm.trans hbr) hdo]
      | failureWithResp r e =>
        rw [sendA_eval_failResp env request req r e hbr hdo,
          sendB_eval_failResp env request req r e (hAB.symm.trans hbr) hdo]
      | success r =>
        rw [sendA_eval_success env request req r hbr hdo,
          sendB_eval_success env request req r (hAB.symm.trans hbr) hdo]
        cases hre : r.BodyRead with
        | error e => simp [VarA.buildResponse, VarB.buildResponse, hre]
        | ok body => simp [VarA.buildResponse, VarB.buildResponse, hre]
  · intro hne
    cases hbr : VarA.buildRequest env request with
    | error e =>
      rw [sendA_eval_err env request e hbr,
        sendB_eval_err env request e (hAB.symm.trans hbr)] at hne
      exact absurd rfl hne
    | ok req =>
      cases hdo : env.doResult req with
      | failure e =>
        rw [sendA_eval_fail env request req e hbr hdo,
          sendB_eval_fail env request req e (hAB.symm.trans hbr) hdo] at hne
        exact absurd rfl hne
      | failureWithResp r e =>
        rw [sendA_eval_failResp env request req r e hbr hdo,
          sendB_eval_failResp env request req r e (hAB.symm.trans hbr) hdo] at hne
        exact absurd rfl hne
      | success r =>
        cases hre : r.BodyRead with
        | error e => exact ⟨req, r, e, rfl, hdo, hre⟩
        | ok body =>
          rw [sendA_eval_success env request req r hbr hdo,
            sendB_eval_success env request req r (hAB.symm.trans hbr) hdo] at hne
          simp [VarA.buildResponse, VarB.buildResponse, hre] at hne

/-- Claim C9 witness: under `envReadErr` (successful dispatch, failing body
read) the two variants' closing behavior actually differs, and the
divergence certificate names the read error. -/
theorem xhttp_C9_witness :
    ∃ req r e, VarA.buildRequest envReadErr (NewRequest "GET" "u" []) = .ok req ∧
      envReadErr.doResult req = .success r ∧ r.BodyRead = .error e := by
  exact (xhttp_C9 envReadErr (NewRequest "GET" "u" [])).2.2 (by decide)
